import Mathlib

/-!
Shallow embedding of `convore/api.py`, the Convore API wrapper module:
JSON values, the transport helpers (`get`, `post`, `_safe_response`),
the domain entities (`User`, `Group`, `Topic`, `Message`, `Category`)
with their `import_from_api` decoders, and the resource-collection
operations (`Groups`, `Topics`, `Users`).

Fallible Python code is embedded as `Option`- or `Except`-valued
functions: `none` / `.error _` is an exception escaping the modelled
code, `some` / `.ok` a normal return.
-/

namespace Convore

/-- JSON values as produced by the external JSON codec
(`convore.packages.anyjson.deserialize`). Numbers are modelled as
integers, which covers every value the module manipulates
(ids, counts, epoch-second timestamps). -/
inductive Json where
  | null
  | bool (b : Bool)
  | num (n : Int)
  | str (s : String)
  | arr (elems : List Json)
  | obj (fields : List (String × Json))

/-- Python `d.get(key, None)`: succeeds exactly when `d` is a mapping
(`AttributeError` otherwise), returning the stored value, or `null`
(Python `None`) when the key is missing. -/
def Json.pyGet : Json → String → Option Json
  | .obj fields, k => some ((fields.lookup k).getD .null)
  | _, _ => none

/-- Python `key in d` on a mapping (`False` used only after `d` is known
to be a mapping). -/
def Json.hasKey : Json → String → Bool
  | .obj fields, k => (fields.lookup k).isSome
  | _, _ => false

/-- Python `d[key]`: `KeyError` when the key is missing, `TypeError`
when `d` is not a mapping. -/
def Json.index : Json → String → Option Json
  | .obj fields, k => fields.lookup k
  | _, _ => none

/-- Python `for x in v`: lists iterate their elements in order, strings
their one-character substrings, mappings their keys; other values are
not iterable (`TypeError`). -/
def Json.pyIter : Json → Option (List Json)
  | .arr elems => some elems
  | .str s => some (s.data.map fun c => .str (String.singleton c))
  | .obj fields => some (fields.map fun p => .str p.1)
  | _ => none

/-- Whether a JSON value is a mapping. -/
def Json.isObj : Json → Bool
  | .obj _ => true
  | _ => false

/-- Value stored under `k` in a field list, `null` (Python `None`) when
absent: the view of `Json.pyGet` once the receiver is a mapping. -/
def getD (fields : List (String × Json)) (k : String) : Json :=
  (fields.lookup k).getD .null

/-- A `datetime.datetime` in UTC, determined by its offset in whole
seconds from the Unix epoch (the value `datetime.utcfromtimestamp`
returns for integer input). -/
structure UTCTime where
  secondsSinceEpoch : Int
deriving DecidableEq

/-- `datetime.utcfromtimestamp`: converts epoch seconds into a UTC
datetime; raises `TypeError` unless given a number (Python `bool` is an
`int` subtype, so JSON booleans convert as 0 or 1). -/
def utcfromtimestamp : Json → Option UTCTime
  | .num n => some ⟨n⟩
  | .bool b => some ⟨if b then 1 else 0⟩
  | _ => none

/-- The two failure kinds the module raises from transport, plus the
Python-level exception (`KeyError` / `TypeError` / `AttributeError`)
that a malformed response body raises out of the decoding code. -/
inductive ApiErr where
  | LoginFailed
  | APIError (msg : Option String)
  | decodeError
deriving DecidableEq

/-- An HTTP response as the module consumes it: the status code plus the
response body, carried already JSON-decoded (`deserialize` below is the
external codec, the identity on this representation). -/
structure Response where
  status_code : Nat
  content : Json

/-- Modelled from the spec: the external JSON codec
(`convore.packages.anyjson.deserialize`, not part of this repository)
producing nested mappings/arrays/scalars from the response body; the
body is carried already decoded, so the codec is the identity here. -/
def deserialize (content : Json) : Json := content

/-- Python truthiness of the optional error message: `None` and the
empty string are falsy, every other string truthy. -/
def truthy : Option String → Bool
  | some s => !(s == "")
  | none => false

/-- `_safe_response(r, error=None)`: `raise_for_status` raises
`requests.HTTPError` for every 4xx/5xx status; a 401 becomes
`LoginFailed`, any other error status becomes
`raise APIError(error) if error else APIError` (so a falsy `error`
yields the message-less `APIError`); any non-error status returns the
response unchanged. -/
def _safe_response (r : Response) (error : Option String) : Except ApiErr Response :=
  if 400 ≤ r.status_code ∧ r.status_code < 600 then
    if r.status_code = 401 then
      .error .LoginFailed
    else
      .error (.APIError (if truthy error then error else none))
  else
    .ok r

/-- Query-string or body parameters handed to the HTTP client. -/
abbrev Params := List (String × String)

/-- The HTTP Basic credential pair set by `login`, `none` before any
`login` call. -/
abbrev Auth := Option (String × String)

inductive Method where
  | GET
  | POST
deriving DecidableEq

/-- Modelled from the spec: the request as handed to the external HTTP
client (spec, External interfaces): a GET call sends the parameter
dictionary as query-string parameters, a POST call sends it
body-encoded; both attach the Basic credential pair. -/
structure HttpRequest where
  method : Method
  url : String
  queryParams : Option Params
  bodyParams : Option Params
  auth : Auth

/-- `API_URL = 'https://convore.com/api/'`. -/
def API_URL : String := "https://convore.com/api/"

/-- One path segment: each is a string or an integer, stringified with
Python `str`. -/
inductive PathSeg where
  | str (s : String)
  | int (n : Int)

/-- Python `str` on a path segment. -/
def PathSeg.toStr : PathSeg → String
  | .str s => s
  | .int n => toString n

/-- `get(*path, **kwargs)`: builds
`'%s%s%s' % (API_URL, '/'.join(map(str, path)), '.json')`, issues a GET
carrying `params` as query parameters and the current credentials, and
normalizes the client's answer `r` through `_safe_response` with the
optional caller-supplied `error` message. The pair returned is
(request issued, outcome of the call given that the client answered
`r`). -/
def get (path : List PathSeg) (params : Option Params) (error : Option String)
    (auth : Auth) (r : Response) : HttpRequest × Except ApiErr Response :=
  ({ method := .GET,
     url := API_URL ++ String.intercalate "/" (path.map PathSeg.toStr) ++ ".json",
     queryParams := params, bodyParams := none, auth := auth },
   _safe_response r error)

/-- `post(params, *path)`: the same URL construction, the parameters
sent body-encoded, and the client's answer normalized through
`_safe_response` with no caller-supplied error message. -/
def post (params : Params) (path : List PathSeg) (auth : Auth) (r : Response) :
    HttpRequest × Except ApiErr Response :=
  ({ method := .POST,
     url := API_URL ++ String.intercalate "/" (path.map PathSeg.toStr) ++ ".json",
     queryParams := none, bodyParams := some params, auth := auth },
   _safe_response r none)

/-- Convore `User` object. -/
structure User where
  username : Json
  url : Json
  id : Json
  img : Json

/-- `User()`: every field starts as `None`. -/
def User.init : User :=
  { username := .null, url := .null, id := .null, img := .null }

/-- `User.import_from_api(self, d)`: one `self.f = d.get('f', None)` per
field. `d.get` raises `AttributeError` unless `d` is a mapping, so the
decode fails outright on a non-mapping input and otherwise assigns
every field its looked-up value (`null` for a missing key); `self`'s
prior field values are all overwritten. -/
def User.import_from_api (_self : User) (d : Json) : Option User :=
  match d with
  | .obj fields =>
    some { username := getD fields "username", url := getD fields "url",
           id := getD fields "id", img := getD fields "img" }
  | _ => none

/-- Convore `Group` object. -/
structure Group where
  kind : Json
  members_count : Json
  name : Json
  creator : Option User
  url : Json
  slug : Json
  date_latest_message : Option UTCTime
  date_created : Option UTCTime
  topics_count : Json
  friends : Option (List User)
  unread : Json
  id : Json
  joined : Bool

/-- `Group()`: every field starts as `None`, except `joined = False`. -/
def Group.init : Group :=
  { kind := .null, members_count := .null, name := .null, creator := none,
    url := .null, slug := .null, date_latest_message := none,
    date_created := none, topics_count := .null, friends := none,
    unread := .null, id := .null, joined := false }

/-- A `for`-loop over decoded values that builds one entity per element
and appends it to an accumulator list, the whole loop failing as soon
as one element fails to decode. -/
def importListWith (f : Json → Option α) : List Json → Option (List α)
  | [] => some []
  | x :: xs =>
    (f x).bind fun a =>
    (importListWith f xs).bind fun as =>
    some (a :: as)

/-- The `friends` block of `Group.import_from_api`:
`if 'friend_list' in d:` then `for friend in d.get('friend_list', None)`
decodes one fresh `User()` per element in order; with the key absent,
`friends` stays the freshly assigned `[]`. -/
def friendsOf (fields : List (String × Json)) : Option (List User) :=
  if (fields.lookup "friend_list").isSome then
    (getD fields "friend_list").pyIter.bind fun elems =>
    importListWith (User.import_from_api User.init) elems
  else
    some []

/-- `Group.import_from_api(self, d)`: each source line
`self.f = d.get('f', None)` becomes a `getD` field value (the first
`d.get` raises `AttributeError` on a non-mapping `d`, hence the outer
match); the two timestamp lines pass their looked-up value through
`datetime.utcfromtimestamp`, the `creator` lines decode a fresh
`User()` from the looked-up value, and the `friends` block is
`friendsOf`. Either all assignments succeed or the decode fails. -/
def Group.import_from_api (self : Group) (d : Json) : Option Group :=
  match d with
  | .obj fields =>
    (utcfromtimestamp (getD fields "date_latest_message")).bind fun date_latest_message =>
    (utcfromtimestamp (getD fields "date_created")).bind fun date_created =>
    (User.import_from_api User.init (getD fields "creator")).bind fun creator =>
    (friendsOf fields).bind fun friends =>
    some { self with
      kind := getD fields "kind",
      members_count := getD fields "members_count",
      name := getD fields "name",
      url := getD fields "url",
      slug := getD fields "slug",
      date_latest_message := some date_latest_message,
      date_created := some date_created,
      topics_count := getD fields "topics_count",
      unread := getD fields "unread",
      id := getD fields "id",
      creator := some creator, friends := some friends }
  | _ => none

/-- Convore `Topic` object. -/
structure Topic where
  id : Json
  name : Json
  slug : Json
  url : Json
  message_count : Json
  unread : Json
  date_created : Option UTCTime
  date_latest_message : Option UTCTime
  creator : Option User

/-- `Topic()`: every field starts as `None`. -/
def Topic.init : Topic :=
  { id := .null, name := .null, slug := .null, url := .null,
    message_count := .null, unread := .null, date_created := none,
    date_latest_message := none, creator := none }

/-- `Topic.import_from_api(self, data)`: same shape as the `Group`
decode — scalar lines become `getD` field values (`AttributeError` on a
non-mapping `data`, hence the outer match), the two timestamp lines go
through `datetime.utcfromtimestamp`, and `creator` decodes a fresh
`User()`. -/
def Topic.import_from_api (self : Topic) (data : Json) : Option Topic :=
  match data with
  | .obj fields =>
    (utcfromtimestamp (getD fields "date_created")).bind fun date_created =>
    (utcfromtimestamp (getD fields "date_latest_message")).bind fun date_latest_message =>
    (User.import_from_api User.init (getD fields "creator")).bind fun creator =>
    some { self with
      id := getD fields "id",
      name := getD fields "name",
      slug := getD fields "slug",
      url := getD fields "url",
      message_count := getD fields "message_count",
      unread := getD fields "unread",
      date_created := some date_created,
      date_latest_message := some date_latest_message,
      creator := some creator }
  | _ => none

/-- Convore `Message` object. -/
structure Message where
  id : Json
  message : Json
  date_created : Option UTCTime
  user : Option User

/-- `Message()`: every field starts as `None`. -/
def Message.init : Message :=
  { id := .null, message := .null, date_created := none, user := none }

/-- `Message.import_from_api(self, data)`: scalar lines become `getD`
field values (`AttributeError` on a non-mapping `data`), the
`date_created` line goes through `datetime.utcfromtimestamp`, and
`user` decodes a fresh `User()`. -/
def Message.import_from_api (self : Message) (data : Json) : Option Message :=
  match data with
  | .obj fields =>
    (utcfromtimestamp (getD fields "date_created")).bind fun date_created =>
    (User.import_from_api User.init (getD fields "user")).bind fun user =>
    some { self with
      id := getD fields "id",
      message := getD fields "message",
      date_created := some date_created, user := some user }
  | _ => none

/-- Convore `Category` object; `groups` is declared by `__init__` and
never populated by any decoding path. -/
structure Category where
  groups_count : Json
  slug : Json
  name : Json
  groups : Json

/-- `Category()`: every field starts as `None`. -/
def Category.init : Category :=
  { groups_count := .null, slug := .null, name := .null, groups := .null }

/-- `Category.import_from_api(self, d)`: assigns `groups_count`, `slug`,
`name` and nothing else (`AttributeError` on a non-mapping `d`). -/
def Category.import_from_api (self : Category) (d : Json) : Option Category :=
  match d with
  | .obj fields =>
    some { self with
      groups_count := getD fields "groups_count",
      slug := getD fields "slug",
      name := getD fields "name" }
  | _ => none

/-- Lifts a decoding result into an operation's outcome: a `none`
decode is the Python exception escaping the operation. -/
def liftDecode : Option α → Except ApiErr α
  | some a => .ok a
  | none => .error .decodeError

/-- One element of `get_user_groups`' loop: a fresh `Group()` decode,
then `group.joined = True`. -/
def Group.fromApiJoined (j : Json) : Option Group :=
  (Group.import_from_api Group.init j).bind fun g =>
  some { g with joined := true }

/-- `Groups.get_user_groups()` applied to the client's answer `r` to
`get('groups')`: iterates `deserialize(response.content)['groups']`,
decoding each element into a fresh `Group` flagged `joined = True`. -/
def Groups.get_user_groups (r : Response) : Except ApiErr (List Group) :=
  (_safe_response r none).bind fun resp =>
  (liftDecode ((deserialize resp.content).index "groups")).bind fun gs =>
  (liftDecode gs.pyIter).bind fun elems =>
  liftDecode (importListWith Group.fromApiJoined elems)

/-- `Groups.get_group(group_id)` applied to the client's answer `r` to
`get('groups', group_id)`: decodes
`deserialize(response.content)['group']` into a fresh `Group`. -/
def Groups.get_group (_group_id : Int) (r : Response) : Except ApiErr Group :=
  (_safe_response r none).bind fun resp =>
  (liftDecode ((deserialize resp.content).index "group")).bind fun gJson =>
  liftDecode (Group.import_from_api Group.init gJson)

/-- One element of `get_group_members`' loop: `member.get('user')`, then
a fresh `User()` decode of it. -/
def memberUser (member : Json) : Option User :=
  (member.pyGet "user").bind fun uJson =>
  User.import_from_api User.init uJson

/-- `Groups.get_group_members(group_id)` applied to the client's answer
`r`: iterates `['members']`, decoding `member.get('user')` each time. -/
def Groups.get_group_members (_group_id : Int) (r : Response) :
    Except ApiErr (List User) :=
  (_safe_response r none).bind fun resp =>
  (liftDecode ((deserialize resp.content).index "members")).bind fun ms =>
  (liftDecode ms.pyIter).bind fun elems =>
  liftDecode (importListWith memberUser elems)

/-- `Groups.get_group_online_members(group_id)` applied to the client's
answer `r`: iterates `['online']`, decoding each element directly. -/
def Groups.get_group_online_members (_group_id : Int) (r : Response) :
    Except ApiErr (List User) :=
  (_safe_response r none).bind fun resp =>
  (liftDecode ((deserialize resp.content).index "online")).bind fun os =>
  (liftDecode os.pyIter).bind fun elems =>
  liftDecode (importListWith (User.import_from_api User.init) elems)

/-- `Groups.get_group_topics(group_id)` applied to the client's answer
`r`: iterates `['topics']`, decoding each element into a fresh
`Topic`. -/
def Groups.get_group_topics (_group_id : Int) (r : Response) :
    Except ApiErr (List Topic) :=
  (_safe_response r none).bind fun resp =>
  (liftDecode ((deserialize resp.content).index "topics")).bind fun ts =>
  (liftDecode ts.pyIter).bind fun elems =>
  liftDecode (importListWith (Topic.import_from_api Topic.init) elems)

/-- `Topics.get_topic(topic_id)` applied to the client's answer `r`:
decodes `['topic']` into a fresh `Topic`. -/
def Topics.get_topic (_topic_id : Int) (r : Response) : Except ApiErr Topic :=
  (_safe_response r none).bind fun resp =>
  (liftDecode ((deserialize resp.content).index "topic")).bind fun tJson =>
  liftDecode (Topic.import_from_api Topic.init tJson)

/-- `Topics.get_messages(topic_id)` applied to the client's answer `r`:
iterates `['messages']`, decoding each element into a fresh
`Message`. -/
def Topics.get_messages (_topic_id : Int) (r : Response) :
    Except ApiErr (List Message) :=
  (_safe_response r none).bind fun resp =>
  (liftDecode ((deserialize resp.content).index "messages")).bind fun ms =>
  (liftDecode ms.pyIter).bind fun elems =>
  liftDecode (importListWith (Message.import_from_api Message.init) elems)

/-- `Users.get_user(user_id)` applied to the client's answer `r`:
decodes `['user']` into a fresh `User`. -/
def Users.get_user (_user_id : Int) (r : Response) : Except ApiErr User :=
  (_safe_response r none).bind fun resp =>
  (liftDecode ((deserialize resp.content).index "user")).bind fun uJson =>
  liftDecode (User.import_from_api User.init uJson)

/-- A timestamp field written back to JSON, `null` when unset. -/
def dateJson : Option UTCTime → Json
  | some t => .num t.secondsSinceEpoch
  | none => .null

/-- Modelled from the spec: re-serialization of a `Group` back into an
API mapping. The repository itself contains no serializer (the spec's
Testable properties state the round-trip law over one), so each scalar
field is emitted under its API key and each timestamp as its epoch
seconds. -/
def Group.export_to_api (g : Group) : Json :=
  .obj [("kind", g.kind), ("members_count", g.members_count),
        ("name", g.name), ("url", g.url), ("slug", g.slug),
        ("date_latest_message", dateJson g.date_latest_message),
        ("date_created", dateJson g.date_created),
        ("topics_count", g.topics_count), ("unread", g.unread),
        ("id", g.id)]

/-- A sample decoded user mapping, used as concrete witness input. -/
def sampleUserJson : Json := .obj [("username", .str "alice"), ("id", .num 1)]

/-- The `User` that `sampleUserJson` decodes to. -/
def sampleUser : User :=
  { username := .str "alice", url := .null, id := .num 1, img := .null }

/-- A sample decoded group mapping, used as concrete witness input: it
carries both timestamps, a creator, one friend, a `joined` key the
decoder must ignore, and omits the `kind`, `url` and `unread` keys. -/
def sampleGroupFields : List (String × Json) :=
  [("name", .str "lean"), ("slug", .str "lean-users"), ("id", .num 7),
   ("members_count", .num 2), ("topics_count", .num 4),
   ("date_latest_message", .num 5), ("date_created", .num 3),
   ("creator", sampleUserJson), ("friend_list", .arr [sampleUserJson]),
   ("joined", .bool true)]

/-- The `Group` that `sampleGroupFields` decodes to from `Group.init`. -/
def sampleGroup : Group :=
  { kind := .null, members_count := .num 2, name := .str "lean",
    creator := some sampleUser, url := .null, slug := .str "lean-users",
    date_latest_message := some ⟨5⟩, date_created := some ⟨3⟩,
    topics_count := .num 4, friends := some [sampleUser],
    unread := .null, id := .num 7, joined := false }

/-- `sampleGroup` as `get_user_groups` returns it, flagged joined. -/
def sampleGroupJoined : Group :=
  { sampleGroup with joined := true }

/-- A 200 response whose body carries one group under `groups`. -/
def groupsResponse : Response :=
  { status_code := 200, content := .obj [("groups", .arr [.obj sampleGroupFields])] }

/-- A 200 response whose body carries one group under `group`. -/
def groupResponse : Response :=
  { status_code := 200, content := .obj [("group", .obj sampleGroupFields)] }

/-- `sampleGroupFields` without its `friend_list` entry. -/
def sampleGroupFieldsNF : List (String × Json) :=
  [("name", .str "lean"), ("slug", .str "lean-users"), ("id", .num 7),
   ("members_count", .num 2), ("topics_count", .num 4),
   ("date_latest_message", .num 5), ("date_created", .num 3),
   ("creator", sampleUserJson)]

/-- The `Group` that `sampleGroupFieldsNF` decodes to from `Group.init`. -/
def sampleGroupNF : Group :=
  { sampleGroup with friends := some [] }

/-! Helper lemmas about the embedding. -/

lemma bind_some_iff {α β : Type} {o : Option α} {f : α → Option β} {b : β} :
    o.bind f = some b ↔ ∃ a, o = some a ∧ f a = some b := by
  cases o <;> simp

lemma exbind_ok_iff {ε α β : Type} {x : Except ε α} {f : α → Except ε β} {b : β} :
    x.bind f = .ok b ↔ ∃ a, x = .ok a ∧ f a = .ok b := by
  cases x <;> simp [Except.bind]

lemma liftDecode_ok_iff {α : Type} {o : Option α} {a : α} :
    liftDecode o = .ok a ↔ o = some a := by
  cases o <;> simp [liftDecode]

lemma safe_ok_iff {r x : Response} {e : Option String} :
    _safe_response r e = .ok x ↔
      ¬(400 ≤ r.status_code ∧ r.status_code < 600) ∧ x = r := by
  unfold _safe_response
  split
  · split <;> simp_all
  · simp_all [eq_comm]

/-- `User.import_from_api` succeeds exactly on a mapping. -/
lemma User.import_isSome (self : User) (j : Json) :
    (User.import_from_api self j).isSome = j.isObj := by
  cases j <;> rfl

/-- Inversion for `Group.import_from_api` on a mapping input. -/
lemma group_import_obj_iff {self : Group} {fields : List (String × Json)}
    {g : Group} :
    Group.import_from_api self (.obj fields) = some g ↔
      ∃ dlm dc c fs,
        utcfromtimestamp (getD fields "date_latest_message") = some dlm ∧
        utcfromtimestamp (getD fields "date_created") = some dc ∧
        User.import_from_api User.init (getD fields "creator") = some c ∧
        friendsOf fields = some fs ∧
        g = { self with
          kind := getD fields "kind",
          members_count := getD fields "members_count",
          name := getD fields "name",
          url := getD fields "url",
          slug := getD fields "slug",
          date_latest_message := some dlm,
          date_created := some dc,
          topics_count := getD fields "topics_count",
          unread := getD fields "unread",
          id := getD fields "id",
          creator := some c, friends := some fs } := by
  simp only [Group.import_from_api, bind_some_iff, Option.some.injEq]
  constructor
  · rintro ⟨dlm, h1, dc, h2, c, h3, fs, h4, h5⟩
    exact ⟨dlm, dc, c, fs, h1, h2, h3, h4, h5.symm⟩
  · rintro ⟨dlm, dc, c, fs, h1, h2, h3, h4, h5⟩
    exact ⟨dlm, h1, dc, h2, c, h3, fs, h4, h5.symm⟩

/-- Inversion for `Topic.import_from_api` on a mapping input. -/
lemma topic_import_obj_iff {self : Topic} {fields : List (String × Json)}
    {t : Topic} :
    Topic.import_from_api self (.obj fields) = some t ↔
      ∃ dc dlm c,
        utcfromtimestamp (getD fields "date_created") = some dc ∧
        utcfromtimestamp (getD fields "date_latest_message") = some dlm ∧
        User.import_from_api User.init (getD fields "creator") = some c ∧
        t = { self with
          id := getD fields "id",
          name := getD fields "name",
          slug := getD fields "slug",
          url := getD fields "url",
          message_count := getD fields "message_count",
          unread := getD fields "unread",
          date_created := some dc,
          date_latest_message := some dlm,
          creator := some c } := by
  simp only [Topic.import_from_api, bind_some_iff, Option.some.injEq]
  constructor
  · rintro ⟨dc, h1, dlm, h2, c, h3, h4⟩
    exact ⟨dc, dlm, c, h1, h2, h3, h4.symm⟩
  · rintro ⟨dc, dlm, c, h1, h2, h3, h4⟩
    exact ⟨dc, h1, dlm, h2, c, h3, h4.symm⟩

/-- Inversion for `Message.import_from_api` on a mapping input. -/
lemma message_import_obj_iff {self : Message} {fields : List (String × Json)}
    {m : Message} :
    Message.import_from_api self (.obj fields) = some m ↔
      ∃ dc u,
        utcfromtimestamp (getD fields "date_created") = some dc ∧
        User.import_from_api User.init (getD fields "user") = some u ∧
        m = { self with
          id := getD fields "id",
          message := getD fields "message",
          date_created := some dc, user := some u } := by
  simp only [Message.import_from_api, bind_some_iff, Option.some.injEq]
  constructor
  · rintro ⟨dc, h1, u, h2, h3⟩
    exact ⟨dc, u, h1, h2, h3.symm⟩
  · rintro ⟨dc, u, h1, h2, h3⟩
    exact ⟨dc, h1, u, h2, h3.symm⟩

/-- A decode into a `Group` leaves `joined` at `self`'s prior value. -/
lemma Group.import_joined {self : Group} {d : Json} {g : Group}
    (h : Group.import_from_api self d = some g) : g.joined = self.joined := by
  cases d
  case obj fields =>
    obtain ⟨dlm, dc, c, fs, -, -, -, -, rfl⟩ := group_import_obj_iff.mp h
    rfl
  all_goals simp [Group.import_from_api] at h

/-- Indexwise description of a successful decoding loop. -/
lemma importListWith_eq_some {α : Type} {f : Json → Option α} :
    ∀ {xs : List Json} {as : List α}, importListWith f xs = some as →
      as.length = xs.length ∧
      ∀ i (h1 : i < xs.length) (h2 : i < as.length),
        f (xs.get ⟨i, h1⟩) = some (as.get ⟨i, h2⟩) := by
  intro xs
  induction xs with
  | nil =>
    intro as h
    simp only [importListWith] at h
    cases h
    exact ⟨rfl, fun i h1 _ => absurd h1 (Nat.not_lt_zero i)⟩
  | cons x xs ih =>
    intro as h
    simp only [importListWith, bind_some_iff, Option.some.injEq] at h
    obtain ⟨a, ha, as', has', rfl⟩ := h
    obtain ⟨hlen, hget⟩ := ih has'
    refine ⟨by simp [hlen], fun i h1 h2 => ?_⟩
    cases i with
    | zero => simpa using ha
    | succ n =>
      exact hget n (Nat.lt_of_succ_lt_succ h1) (Nat.lt_of_succ_lt_succ h2)

/-- Membership description of a successful decoding loop. -/
lemma importListWith_mem {α : Type} {f : Json → Option α} :
    ∀ {xs : List Json} {as : List α}, importListWith f xs = some as →
      ∀ a ∈ as, ∃ x ∈ xs, f x = some a := by
  intro xs
  induction xs with
  | nil =>
    intro as h
    simp only [importListWith] at h
    cases h
    simp
  | cons x xs ih =>
    intro as h
    simp only [importListWith, bind_some_iff, Option.some.injEq] at h
    obtain ⟨a, ha, as', has', rfl⟩ := h
    intro b hb
    rcases List.mem_cons.mp hb with hb | hb
    · exact ⟨x, List.mem_cons_self x xs, hb ▸ ha⟩
    · obtain ⟨y, hy, hfy⟩ := ih has' b hb
      exact ⟨y, List.mem_cons_of_mem x hy, hfy⟩

/-- The element decode of `get_user_groups` always flags `joined`. -/
lemma fromApiJoined_joined {j : Json} {g : Group}
    (h : Group.fromApiJoined j = some g) : g.joined = true := by
  simp only [Group.fromApiJoined, bind_some_iff, Option.some.injEq] at h
  obtain ⟨g0, -, rfl⟩ := h
  rfl

/-- A resource-collection pipeline fails when the envelope key is
missing from the decoded body, whatever else it would do. -/
lemma pipeline_error {β : Type} (r : Response) (key : String)
    (k : Json → Except ApiErr β) (h : r.content.index key = none) :
    ∃ e, ((_safe_response r none).bind fun resp =>
      (liftDecode ((deserialize resp.content).index key)).bind k)
        = .error e := by
  cases hs : _safe_response r none with
  | error e => exact ⟨e, by simp [hs, Except.bind]⟩
  | ok resp =>
    obtain ⟨-, rfl⟩ := safe_ok_iff.mp hs
    exact ⟨.decodeError, by simp [hs, Except.bind, deserialize, h, liftDecode]⟩

/-- Inversion of a successful list-shaped resource-collection
pipeline. -/
lemma pipeline_list_inv {α : Type} {r : Response} {key : String}
    {f : Json → Option α} {out : List α}
    (hok : ((_safe_response r none).bind fun resp =>
        (liftDecode ((deserialize resp.content).index key)).bind fun v =>
        (liftDecode v.pyIter).bind fun elems =>
        liftDecode (importListWith f elems)) = .ok out) :
    ∃ v elems, r.content.index key = some v ∧ v.pyIter = some elems ∧
      importListWith f elems = some out := by
  rw [exbind_ok_iff] at hok
  obtain ⟨resp, hsafe, hok⟩ := hok
  obtain ⟨-, rfl⟩ := safe_ok_iff.mp hsafe
  rw [exbind_ok_iff] at hok
  obtain ⟨v, hv, hok⟩ := hok
  rw [liftDecode_ok_iff] at hv
  rw [exbind_ok_iff] at hok
  obtain ⟨elems, he, hok⟩ := hok
  rw [liftDecode_ok_iff] at he
  exact ⟨v, elems, hv, he, liftDecode_ok_iff.mp hok⟩

/-- Inversion of a successful single-entity resource-collection
pipeline. -/
lemma pipeline_single_inv {α : Type} {r : Response} {key : String}
    {f : Json → Option α} {out : α}
    (hok : ((_safe_response r none).bind fun resp =>
        (liftDecode ((deserialize resp.content).index key)).bind fun v =>
        liftDecode (f v)) = .ok out) :
    ∃ v, r.content.index key = some v ∧ f v = some out := by
  rw [exbind_ok_iff] at hok
  obtain ⟨resp, hsafe, hok⟩ := hok
  obtain ⟨-, rfl⟩ := safe_ok_iff.mp hsafe
  rw [exbind_ok_iff] at hok
  obtain ⟨v, hv, hok⟩ := hok
  rw [liftDecode_ok_iff] at hv
  exact ⟨v, hv, liftDecode_ok_iff.mp hok⟩

/-- Order-preserving decode of a list-shaped pipeline whose envelope
value is an array. -/
lemma pipeline_list_ok {α : Type} {r : Response} {key : String}
    {f : Json → Option α} {out : List α} {xs : List Json}
    (hok : ((_safe_response r none).bind fun resp =>
        (liftDecode ((deserialize resp.content).index key)).bind fun v =>
        (liftDecode v.pyIter).bind fun elems =>
        liftDecode (importListWith f elems)) = .ok out)
    (hidx : r.content.index key = some (.arr xs)) :
    out.length = xs.length ∧
    ∀ i (h1 : i < xs.length) (h2 : i < out.length),
      f (xs.get ⟨i, h1⟩) = some (out.get ⟨i, h2⟩) := by
  obtain ⟨v, elems, hv, he, himp⟩ := pipeline_list_inv hok
  rw [hidx] at hv
  cases hv
  rw [show (Json.arr xs).pyIter = some xs from rfl] at he
  cases he
  exact importListWith_eq_some himp

/-! Claim theorems. -/

/-- C8: for every sequence of path segments (each a string or an
integer), both `get` and `post` build the target URL as the fixed base
URL, followed by the segments' string forms joined with `/`, followed
by the fixed `.json` suffix. -/
theorem url_construction (path : List PathSeg) (params : Option Params)
    (body : Params) (error : Option String) (auth : Auth) (r : Response) :
    (get path params error auth r).1.url
        = API_URL ++ String.intercalate "/" (path.map PathSeg.toStr) ++ ".json" ∧
    (post body path auth r).1.url
        = API_URL ++ String.intercalate "/" (path.map PathSeg.toStr) ++ ".json" :=
  ⟨rfl, rfl⟩

/-- C7: `post` performs the same URL construction and the same response
error handling as `get` (namely `get`'s handling with no caller-supplied
error message), but sends its parameters as the request body whereas
`get` sends its parameters as query-string parameters. -/
theorem post_mirrors_get (path : List PathSeg) (params : Params)
    (queryParams : Option Params) (error : Option String) (auth : Auth)
    (r : Response) :
    (post params path auth r).1.url = (get path queryParams error auth r).1.url ∧
    (post params path auth r).2 = (get path queryParams none auth r).2 ∧
    (get path queryParams error auth r).1.queryParams = queryParams ∧
    (get path queryParams error auth r).1.bodyParams = none ∧
    (post params path auth r).1.bodyParams = some params ∧
    (post params path auth r).1.queryParams = none :=
  ⟨rfl, rfl, rfl, rfl, rfl, rfl⟩

/-- C1 (counterexample): with the caller-supplied message `""` and a 500
status, `_safe_response` raises the message-less `APIError`, not
`APIError ""` — the supplied message is dropped because Python tests
`if error` for truthiness, so the claim's "carrying the caller-supplied
descriptive message when one was supplied" fails at this input. -/
theorem safe_response_drops_empty_error :
    _safe_response { status_code := 500, content := Json.null } (some "")
        = .error (.APIError none) ∧
    _safe_response { status_code := 500, content := Json.null } (some "")
        ≠ .error (.APIError (some "")) := by
  refine ⟨rfl, ?_⟩
  intro h
  rw [show _safe_response { status_code := 500, content := Json.null } (some "")
      = .error (.APIError none) from rfl] at h
  simp at h

/-- C1 (amended): for every transport call (`get` or `post`), a 401
response fails with `LoginFailed` regardless of any caller-supplied
error message; any other HTTP error status (4xx/5xx) fails with
`APIError` carrying the caller-supplied message when a non-empty one
was supplied (an empty string counts as not supplied, by Python
truthiness) and the generic message-less `APIError` otherwise — `post`
never supplies a message; on any non-error status the raw response is
returned unchanged. -/
theorem transport_error_taxonomy (path : List PathSeg) (params : Option Params)
    (body : Params) (error : Option String) (auth : Auth) (r : Response) :
    (r.status_code = 401 →
      (get path params error auth r).2 = .error .LoginFailed ∧
      (post body path auth r).2 = .error .LoginFailed) ∧
    (400 ≤ r.status_code → r.status_code < 600 → r.status_code ≠ 401 →
      (∀ s, error = some s → s ≠ "" →
        (get path params error auth r).2 = .error (.APIError (some s))) ∧
      ((error = none ∨ error = some "") →
        (get path params error auth r).2 = .error (.APIError none)) ∧
      (post body path auth r).2 = .error (.APIError none)) ∧
    (¬(400 ≤ r.status_code ∧ r.status_code < 600) →
      (get path params error auth r).2 = .ok r ∧
      (post body path auth r).2 = .ok r) := by
  refine ⟨fun h401 => ?_, fun h4 h6 hne => ?_, fun hok => ?_⟩
  · constructor <;>
      simp [get, post, _safe_response, h401]
  · refine ⟨fun s hs hne' => ?_, fun hcase => ?_, ?_⟩
    · have ht : truthy (some s) = true := by
        simp [truthy, hne']
      simp [get, _safe_response, if_pos (And.intro h4 h6), if_neg hne, hs, ht]
    · have ht : truthy error = false := by
        rcases hcase with h | h <;> simp [h, truthy]
      simp [get, _safe_response, if_pos (And.intro h4 h6), if_neg hne, ht]
    · simp [post, _safe_response, if_pos (And.intro h4 h6), if_neg hne, truthy]
  · constructor <;>
      simp [get, post, _safe_response, if_neg hok]

/-- C1 (witness): the amended taxonomy applied at a 500 response with a
non-empty message, at a 401 response, and at a 200 response. -/
theorem transport_error_taxonomy_witness :
    (get [] none (some "boom") none { status_code := 500, content := Json.null }).2
        = .error (.APIError (some "boom")) ∧
    (get [] none none none { status_code := 401, content := Json.null }).2
        = .error .LoginFailed ∧
    (get [] none none none { status_code := 200, content := Json.null }).2
        = .ok { status_code := 200, content := Json.null } := by
  refine ⟨?_, ?_, ?_⟩
  · exact ((transport_error_taxonomy [] none [] (some "boom") none
      { status_code := 500, content := Json.null }).2.1 (by decide) (by decide)
      (by decide)).1 "boom" rfl (by decide)
  · exact ((transport_error_taxonomy [] none [] none none
      { status_code := 401, content := Json.null }).1 rfl).1
  · exact ((transport_error_taxonomy [] none [] none none
      { status_code := 200, content := Json.null }).2.2 (by decide)).1

/-- C2: for every entity decoding operation on a mapping and every
scalar field, a missing key yields the absent marker `null` and a
present key yields exactly the mapped value; decoding never fails on a
missing scalar key — `User` and `Category` decodes always succeed, and
for `Group`, `Topic` and `Message` success is equivalent to a condition
mentioning only the timestamp keys, the nested-entity key and the
`friend_list` collection, never a scalar key. -/
theorem scalar_field_decoding (fields : List (String × Json)) :
    (∀ self : User, User.import_from_api self (.obj fields) =
      some { username := getD fields "username", url := getD fields "url",
             id := getD fields "id", img := getD fields "img" }) ∧
    (∀ self : Category, Category.import_from_api self (.obj fields) =
      some { self with
        groups_count := getD fields "groups_count",
        slug := getD fields "slug",
        name := getD fields "name" }) ∧
    (∀ self g : Group, Group.import_from_api self (.obj fields) = some g →
      g.kind = getD fields "kind" ∧
      g.members_count = getD fields "members_count" ∧
      g.name = getD fields "name" ∧
      g.url = getD fields "url" ∧
      g.slug = getD fields "slug" ∧
      g.topics_count = getD fields "topics_count" ∧
      g.unread = getD fields "unread" ∧
      g.id = getD fields "id") ∧
    (∀ self : Group, (Group.import_from_api self (.obj fields)).isSome = true ↔
      ((utcfromtimestamp (getD fields "date_latest_message")).isSome = true ∧
       (utcfromtimestamp (getD fields "date_created")).isSome = true ∧
       (getD fields "creator").isObj = true ∧
       (friendsOf fields).isSome = true)) ∧
    (∀ self t : Topic, Topic.import_from_api self (.obj fields) = some t →
      t.id = getD fields "id" ∧
      t.name = getD fields "name" ∧
      t.slug = getD fields "slug" ∧
      t.url = getD fields "url" ∧
      t.message_count = getD fields "message_count" ∧
      t.unread = getD fields "unread") ∧
    (∀ self : Topic, (Topic.import_from_api self (.obj fields)).isSome = true ↔
      ((utcfromtimestamp (getD fields "date_created")).isSome = true ∧
       (utcfromtimestamp (getD fields "date_latest_message")).isSome = true ∧
       (getD fields "creator").isObj = true)) ∧
    (∀ self m : Message, Message.import_from_api self (.obj fields) = some m →
      m.id = getD fields "id" ∧
      m.message = getD fields "message") ∧
    (∀ self : Message, (Message.import_from_api self (.obj fields)).isSome = true ↔
      ((utcfromtimestamp (getD fields "date_created")).isSome = true ∧
       (getD fields "user").isObj = true)) := by
  refine ⟨fun self => rfl, fun self => rfl, ?_, ?_, ?_, ?_, ?_, ?_⟩
  · intro self g h
    obtain ⟨dlm, dc, c, fs, -, -, -, -, rfl⟩ := group_import_obj_iff.mp h
    exact ⟨rfl, rfl, rfl, rfl, rfl, rfl, rfl, rfl⟩
  · intro self
    constructor
    · intro h
      rw [Option.isSome_iff_exists] at h
      obtain ⟨g, hg⟩ := h
      obtain ⟨dlm, dc, c, fs, h1, h2, h3, h4, -⟩ := group_import_obj_iff.mp hg
      have hu := User.import_isSome User.init (getD fields "creator")
      rw [h3] at hu
      exact ⟨by simp [h1], by simp [h2], hu.symm, by simp [h4]⟩
    · rintro ⟨h1, h2, h3, h4⟩
      rw [Option.isSome_iff_exists] at h1 h2 h4
      obtain ⟨dlm, h1⟩ := h1
      obtain ⟨dc, h2⟩ := h2
      obtain ⟨fs, h4⟩ := h4
      have hu := User.import_isSome User.init (getD fields "creator")
      rw [h3, Option.isSome_iff_exists] at hu
      obtain ⟨c, hc⟩ := hu
      rw [Option.isSome_iff_exists]
      exact ⟨_, group_import_obj_iff.mpr ⟨dlm, dc, c, fs, h1, h2, hc, h4, rfl⟩⟩
  · intro self t h
    obtain ⟨dc, dlm, c, -, -, -, rfl⟩ := topic_import_obj_iff.mp h
    exact ⟨rfl, rfl, rfl, rfl, rfl, rfl⟩
  · intro self
    constructor
    · intro h
      rw [Option.isSome_iff_exists] at h
      obtain ⟨t, ht⟩ := h
      obtain ⟨dc, dlm, c, h1, h2, h3, -⟩ := topic_import_obj_iff.mp ht
      have hu := User.import_isSome User.init (getD fields "creator")
      rw [h3] at hu
      exact ⟨by simp [h1], by simp [h2], hu.symm⟩
    · rintro ⟨h1, h2, h3⟩
      rw [Option.isSome_iff_exists] at h1 h2
      obtain ⟨dc, h1⟩ := h1
      obtain ⟨dlm, h2⟩ := h2
      have hu := User.import_isSome User.init (getD fields "creator")
      rw [h3, Option.isSome_iff_exists] at hu
      obtain ⟨c, hc⟩ := hu
      rw [Option.isSome_iff_exists]
      exact ⟨_, topic_import_obj_iff.mpr ⟨dc, dlm, c, h1, h2, hc, rfl⟩⟩
  · intro self m h
    obtain ⟨dc, u, -, -, rfl⟩ := message_import_obj_iff.mp h
    exact ⟨rfl, rfl⟩
  · intro self
    constructor
    · intro h
      rw [Option.isSome_iff_exists] at h
      obtain ⟨m, hm⟩ := h
      obtain ⟨dc, u, h1, h2, -⟩ := message_import_obj_iff.mp hm
      have hu := User.import_isSome User.init (getD fields "user")
      rw [h2] at hu
      exact ⟨by simp [h1], hu.symm⟩
    · rintro ⟨h1, h2⟩
      rw [Option.isSome_iff_exists] at h1
      obtain ⟨dc, h1⟩ := h1
      have hu := User.import_isSome User.init (getD fields "user")
      rw [h2, Option.isSome_iff_exists] at hu
      obtain ⟨u, hu⟩ := hu
      rw [Option.isSome_iff_exists]
      exact ⟨_, message_import_obj_iff.mpr ⟨dc, u, h1, hu, rfl⟩⟩

/-- C2 (witness): the `Group` clause applied at `sampleGroupFields`,
whose mapping omits the `kind` and `unread` keys and carries `name`
and `id`: the missing keys decode to the absent marker and the present
keys to their mapped values. -/
theorem scalar_field_decoding_witness :
    sampleGroup.kind = Json.null ∧ sampleGroup.unread = Json.null ∧
    sampleGroup.name = Json.str "lean" ∧ sampleGroup.id = Json.num 7 := by
  have h := (scalar_field_decoding sampleGroupFields).2.2.1 Group.init
    sampleGroup (by rfl)
  exact ⟨h.1, h.2.2.2.2.2.2.1, h.2.2.1, h.2.2.2.2.2.2.2⟩

/-- C3: for `Group`, `Topic` and `Message` decoding on a mapping, a
missing timestamp key (`date_created`, and `date_latest_message` where
the entity has one) makes the decode fail outright, as does a nested
single-entity value (`creator` for Group/Topic, `user` for Message)
that is missing or not a mapping; on success the timestamp fields hold
the `utcfromtimestamp` conversion of the mapped epoch-seconds value and
the nested field holds the fully decoded child entity. -/
theorem strict_field_decoding (fields : List (String × Json)) :
    (∀ self : Group, fields.lookup "date_created" = none →
      Group.import_from_api self (.obj fields) = none) ∧
    (∀ self : Group, fields.lookup "date_latest_message" = none →
      Group.import_from_api self (.obj fields) = none) ∧
    (∀ self : Group, (getD fields "creator").isObj = false →
      Group.import_from_api self (.obj fields) = none) ∧
    (∀ self : Topic, fields.lookup "date_created" = none →
      Topic.import_from_api self (.obj fields) = none) ∧
    (∀ self : Topic, fields.lookup "date_latest_message" = none →
      Topic.import_from_api self (.obj fields) = none) ∧
    (∀ self : Topic, (getD fields "creator").isObj = false →
      Topic.import_from_api self (.obj fields) = none) ∧
    (∀ self : Message, fields.lookup "date_created" = none →
      Message.import_from_api self (.obj fields) = none) ∧
    (∀ self : Message, (getD fields "user").isObj = false →
      Message.import_from_api self (.obj fields) = none) ∧
    (∀ self g : Group, Group.import_from_api self (.obj fields) = some g →
      (∃ t, utcfromtimestamp (getD fields "date_created") = some t ∧
        g.date_created = some t) ∧
      (∃ t, utcfromtimestamp (getD fields "date_latest_message") = some t ∧
        g.date_latest_message = some t) ∧
      (∃ c, User.import_from_api User.init (getD fields "creator") = some c ∧
        g.creator = some c)) ∧
    (∀ self t : Topic, Topic.import_from_api self (.obj fields) = some t →
      (∃ u, utcfromtimestamp (getD fields "date_created") = some u ∧
        t.date_created = some u) ∧
      (∃ u, utcfromtimestamp (getD fields "date_latest_message") = some u ∧
        t.date_latest_message = some u) ∧
      (∃ c, User.import_from_api User.init (getD fields "creator") = some c ∧
        t.creator = some c)) ∧
    (∀ self m : Message, Message.import_from_api self (.obj fields) = some m →
      (∃ u, utcfromtimestamp (getD fields "date_created") = some u ∧
        m.date_created = some u) ∧
      (∃ c, User.import_from_api User.init (getD fields "user") = some c ∧
        m.user = some c)) := by
  refine ⟨?_, ?_, ?_, ?_, ?_, ?_, ?_, ?_, ?_, ?_, ?_⟩
  · intro self h
    cases himp : Group.import_from_api self (.obj fields) with
    | none => rfl
    | some g =>
      obtain ⟨dlm, dc, c, fs, -, h2, -, -, -⟩ := group_import_obj_iff.mp himp
      rw [getD, h] at h2
      simp [utcfromtimestamp] at h2
  · intro self h
    cases himp : Group.import_from_api self (.obj fields) with
    | none => rfl
    | some g =>
      obtain ⟨dlm, dc, c, fs, h1, -, -, -, -⟩ := group_import_obj_iff.mp himp
      rw [getD, h] at h1
      simp [utcfromtimestamp] at h1
  · intro self h
    cases himp : Group.import_from_api self (.obj fields) with
    | none => rfl
    | some g =>
      obtain ⟨dlm, dc, c, fs, -, -, h3, -, -⟩ := group_import_obj_iff.mp himp
      have hu := User.import_isSome User.init (getD fields "creator")
      rw [h3, h] at hu
      simp at hu
  · intro self h
    cases himp : Topic.import_from_api self (.obj fields) with
    | none => rfl
    | some t =>
      obtain ⟨dc, dlm, c, h1, -, -, -⟩ := topic_import_obj_iff.mp himp
      rw [getD, h] at h1
      simp [utcfromtimestamp] at h1
  · intro self h
    cases himp : Topic.import_from_api self (.obj fields) with
    | none => rfl
    | some t =>
      obtain ⟨dc, dlm, c, -, h2, -, -⟩ := topic_import_obj_iff.mp himp
      rw [getD, h] at h2
      simp [utcfromtimestamp] at h2
  · intro self h
    cases himp : Topic.import_from_api self (.obj fields) with
    | none => rfl
    | some t =>
      obtain ⟨dc, dlm, c, -, -, h3, -⟩ := topic_import_obj_iff.mp himp
      have hu := User.import_isSome User.init (getD fields "creator")
      rw [h3, h] at hu
      simp at hu
  · intro self h
    cases himp : Message.import_from_api self (.obj fields) with
    | none => rfl
    | some m =>
      obtain ⟨dc, u, h1, -, -⟩ := message_import_obj_iff.mp himp
      rw [getD, h] at h1
      simp [utcfromtimestamp] at h1
  · intro self h
    cases himp : Message.import_from_api self (.obj fields) with
    | none => rfl
    | some m =>
      obtain ⟨dc, u, -, h2, -⟩ := message_import_obj_iff.mp himp
      have hu := User.import_isSome User.init (getD fields "user")
      rw [h2, h] at hu
      simp at hu
  · intro self g h
    obtain ⟨dlm, dc, c, fs, h1, h2, h3, -, rfl⟩ := group_import_obj_iff.mp h
    exact ⟨⟨dc, h2, rfl⟩, ⟨dlm, h1, rfl⟩, ⟨c, h3, rfl⟩⟩
  · intro self t h
    obtain ⟨dc, dlm, c, h1, h2, h3, rfl⟩ := topic_import_obj_iff.mp h
    exact ⟨⟨dc, h1, rfl⟩, ⟨dlm, h2, rfl⟩, ⟨c, h3, rfl⟩⟩
  · intro self m h
    obtain ⟨dc, u, h1, h2, rfl⟩ := message_import_obj_iff.mp h
    exact ⟨⟨dc, h1, rfl⟩, ⟨u, h2, rfl⟩⟩

/-- C3 (witness): the empty mapping (no timestamp key) makes the Group
decode fail, and at `sampleGroupFields` the decoded group carries the
converted `date_created` and the fully decoded creator. -/
theorem strict_field_decoding_witness :
    Group.import_from_api Group.init (Json.obj []) = none ∧
    sampleGroup.date_created = some ⟨3⟩ ∧
    sampleGroup.creator = some sampleUser := by
  refine ⟨(strict_field_decoding []).1 Group.init rfl, ?_, ?_⟩
  · obtain ⟨⟨t, ht, hdc⟩, -, -⟩ :=
      (strict_field_decoding sampleGroupFields).2.2.2.2.2.2.2.2.1 Group.init
        sampleGroup (by rfl)
    rw [show utcfromtimestamp (getD sampleGroupFields "date_created")
        = some (⟨3⟩ : UTCTime) from rfl] at ht
    cases ht
    exact hdc
  · obtain ⟨-, -, ⟨c, hc, hcr⟩⟩ :=
      (strict_field_decoding sampleGroupFields).2.2.2.2.2.2.2.2.1 Group.init
        sampleGroup (by rfl)
    rw [show User.import_from_api User.init (getD sampleGroupFields "creator")
        = some sampleUser from rfl] at hc
    cases hc
    exact hcr

/-- C4: for a successful Group decode from a mapping, an absent
`friend_list` key yields an empty friends sequence, and a `friend_list`
key holding an array of N user mappings yields exactly N decoded
`User` entities, in the array's order. -/
theorem friend_list_decoding (fields : List (String × Json)) (self g : Group)
    (h : Group.import_from_api self (.obj fields) = some g) :
    (fields.lookup "friend_list" = none → g.friends = some []) ∧
    (∀ xs : List Json, fields.lookup "friend_list" = some (.arr xs) →
      ∃ us : List User, g.friends = some us ∧ us.length = xs.length ∧
        ∀ i (h1 : i < xs.length) (h2 : i < us.length),
          User.import_from_api User.init (xs.get ⟨i, h1⟩)
            = some (us.get ⟨i, h2⟩)) := by
  obtain ⟨dlm, dc, c, fs, -, -, -, h4, rfl⟩ := group_import_obj_iff.mp h
  constructor
  · intro habs
    rw [show friendsOf fields = some [] by simp [friendsOf, habs]] at h4
    cases h4
    rfl
  · intro xs hxs
    rw [show friendsOf fields
        = importListWith (User.import_from_api User.init) xs by
      simp [friendsOf, hxs, getD, Json.pyIter]] at h4
    obtain ⟨hlen, hget⟩ := importListWith_eq_some h4
    exact ⟨fs, rfl, hlen, hget⟩

/-- C4 (witness): at `sampleGroupFieldsNF` (no `friend_list`) the
friends sequence is empty; at `sampleGroupFields` (one user mapping in
`friend_list`) it has exactly one decoded entity. -/
theorem friend_list_decoding_witness :
    sampleGroupNF.friends = some [] ∧
    ∃ us : List User, sampleGroup.friends = some us ∧ us.length = 1 := by
  constructor
  · exact (friend_list_decoding sampleGroupFieldsNF Group.init sampleGroupNF
      (by rfl)).1 rfl
  · obtain ⟨us, hus, hlen, -⟩ :=
      (friend_list_decoding sampleGroupFields Group.init sampleGroup
        (by rfl)).2 [sampleUserJson] rfl
    exact ⟨us, hus, hlen.trans rfl⟩

/-- C5: every `Group` returned by `get_user_groups` has `joined = true`,
and a `Group` returned by `get_group` (any group id, any successful
response) has `joined = false`; the flag depends only on which operation
produced the entity, since both parts hold for every response
payload. -/
theorem joined_flag_provenance :
    (∀ (r : Response) (gs : List Group), Groups.get_user_groups r = .ok gs →
      ∀ g ∈ gs, g.joined = true) ∧
    (∀ (group_id : Int) (r : Response) (g : Group),
      Groups.get_group group_id r = .ok g → g.joined = false) := by
  constructor
  · intro r gs hok g hg
    obtain ⟨v, elems, -, -, himp⟩ := pipeline_list_inv hok
    obtain ⟨x, -, hx⟩ := importListWith_mem himp g hg
    exact fromApiJoined_joined hx
  · intro group_id r g hok
    obtain ⟨v, -, himp⟩ := pipeline_single_inv hok
    exact Group.import_joined himp

/-- C5 (witness): `get_user_groups` and `get_group` applied to one-group
200 responses built from `sampleGroupFields`. -/
theorem joined_flag_provenance_witness :
    sampleGroupJoined.joined = true ∧ sampleGroup.joined = false := by
  constructor
  · exact joined_flag_provenance.1 groupsResponse [sampleGroupJoined] (by rfl)
      sampleGroupJoined (List.mem_singleton.mpr rfl)
  · exact joined_flag_provenance.2 7 groupResponse sampleGroup (by rfl)

/-- C6: every resource-collection operation fails (never returns a
default entity) when the JSON-decoded body lacks its expected top-level
envelope key, and when the key is present holding an ordered array the
returned entity list matches the array element-for-element, in the
array's order. -/
theorem envelope_key_handling (r : Response) :
    (r.content.index "groups" = none →
      ∃ e, Groups.get_user_groups r = .error e) ∧
    (∀ gid, r.content.index "group" = none →
      ∃ e, Groups.get_group gid r = .error e) ∧
    (∀ gid, r.content.index "members" = none →
      ∃ e, Groups.get_group_members gid r = .error e) ∧
    (∀ gid, r.content.index "online" = none →
      ∃ e, Groups.get_group_online_members gid r = .error e) ∧
    (∀ gid, r.content.index "topics" = none →
      ∃ e, Groups.get_group_topics gid r = .error e) ∧
    (∀ tid, r.content.index "topic" = none →
      ∃ e, Topics.get_topic tid r = .error e) ∧
    (∀ tid, r.content.index "messages" = none →
      ∃ e, Topics.get_messages tid r = .error e) ∧
    (∀ uid, r.content.index "user" = none →
      ∃ e, Users.get_user uid r = .error e) ∧
    (∀ gs xs, Groups.get_user_groups r = .ok gs →
      r.content.index "groups" = some (.arr xs) →
      gs.length = xs.length ∧ ∀ i (h1 : i < xs.length) (h2 : i < gs.length),
        Group.fromApiJoined (xs.get ⟨i, h1⟩) = some (gs.get ⟨i, h2⟩)) ∧
    (∀ gid us xs, Groups.get_group_members gid r = .ok us →
      r.content.index "members" = some (.arr xs) →
      us.length = xs.length ∧ ∀ i (h1 : i < xs.length) (h2 : i < us.length),
        memberUser (xs.get ⟨i, h1⟩) = some (us.get ⟨i, h2⟩)) ∧
    (∀ gid us xs, Groups.get_group_online_members gid r = .ok us →
      r.content.index "online" = some (.arr xs) →
      us.length = xs.length ∧ ∀ i (h1 : i < xs.length) (h2 : i < us.length),
        User.import_from_api User.init (xs.get ⟨i, h1⟩)
          = some (us.get ⟨i, h2⟩)) ∧
    (∀ gid ts xs, Groups.get_group_topics gid r = .ok ts →
      r.content.index "topics" = some (.arr xs) →
      ts.length = xs.length ∧ ∀ i (h1 : i < xs.length) (h2 : i < ts.length),
        Topic.import_from_api Topic.init (xs.get ⟨i, h1⟩)
          = some (ts.get ⟨i, h2⟩)) ∧
    (∀ tid ms xs, Topics.get_messages tid r = .ok ms →
      r.content.index "messages" = some (.arr xs) →
      ms.length = xs.length ∧ ∀ i (h1 : i < xs.length) (h2 : i < ms.length),
        Message.import_from_api Message.init (xs.get ⟨i, h1⟩)
          = some (ms.get ⟨i, h2⟩)) := by
  refine ⟨fun h => pipeline_error r "groups" _ h,
    fun gid h => pipeline_error r "group" _ h,
    fun gid h => pipeline_error r "members" _ h,
    fun gid h => pipeline_error r "online" _ h,
    fun gid h => pipeline_error r "topics" _ h,
    fun tid h => pipeline_error r "topic" _ h,
    fun tid h => pipeline_error r "messages" _ h,
    fun uid h => pipeline_error r "user" _ h,
    fun gs xs hok hidx => pipeline_list_ok hok hidx,
    fun gid us xs hok hidx => pipeline_list_ok hok hidx,
    fun gid us xs hok hidx => pipeline_list_ok hok hidx,
    fun gid ts xs hok hidx => pipeline_list_ok hok hidx,
    fun tid ms xs hok hidx => pipeline_list_ok hok hidx⟩

/-- C6 (witness): a 200 response with an empty-object body makes
`get_user_groups` fail, and on `groupsResponse` (array of one group
mapping under `groups`) the returned list has the array's length. -/
theorem envelope_key_handling_witness :
    (∃ e, Groups.get_user_groups
      { status_code := 200, content := Json.obj [] } = .error e) ∧
    [sampleGroupJoined].length = [Json.obj sampleGroupFields].length := by
  constructor
  · exact (envelope_key_handling
      { status_code := 200, content := Json.obj [] }).1 rfl
  · exact ((envelope_key_handling groupsResponse).2.2.2.2.2.2.2.2.1
      [sampleGroupJoined] [Json.obj sampleGroupFields] (by rfl) rfl).1

/-- C9: decoding a group mapping into a `Group` and re-serializing it
preserves the `id`, `slug`, `name`, `members_count` and `topics_count`
values exactly (re-serialization modelled from the spec, as
`Group.export_to_api`). -/
theorem group_roundtrip (fields : List (String × Json)) (self g : Group)
    (h : Group.import_from_api self (.obj fields) = some g) :
    (∀ v, fields.lookup "id" = some v →
      (Group.export_to_api g).index "id" = some v) ∧
    (∀ v, fields.lookup "slug" = some v →
      (Group.export_to_api g).index "slug" = some v) ∧
    (∀ v, fields.lookup "name" = some v →
      (Group.export_to_api g).index "name" = some v) ∧
    (∀ v, fields.lookup "members_count" = some v →
      (Group.export_to_api g).index "members_count" = some v) ∧
    (∀ v, fields.lookup "topics_count" = some v →
      (Group.export_to_api g).index "topics_count" = some v) := by
  obtain ⟨dlm, dc, c, fs, -, -, -, -, rfl⟩ := group_import_obj_iff.mp h
  refine ⟨fun v hv => ?_, fun v hv => ?_, fun v hv => ?_, fun v hv => ?_,
    fun v hv => ?_⟩ <;>
    simp [Group.export_to_api, Json.index, List.lookup, getD, hv]

/-- C9 (witness): the round-trip applied at `sampleGroupFields`. -/
theorem group_roundtrip_witness :
    (Group.export_to_api sampleGroup).index "id" = some (Json.num 7) ∧
    (Group.export_to_api sampleGroup).index "slug"
      = some (Json.str "lean-users") := by
  have h := group_roundtrip sampleGroupFields Group.init sampleGroup (by rfl)
  exact ⟨h.1 (Json.num 7) rfl, h.2.1 (Json.str "lean-users") rfl⟩

/-- C10: `Group.import_from_api` never reads a `joined` key — for every
input (including a mapping that carries a `joined` key), the `joined`
field keeps the value it had before the call, `false` after
construction (`Group.init`); `joined` is the only `Group` field besides
the twelve assigned ones. -/
theorem joined_frame_condition :
    Group.init.joined = false ∧
    ∀ (self : Group) (d : Json) (g : Group),
      Group.import_from_api self d = some g → g.joined = self.joined :=
  ⟨rfl, fun _self _d _g h => Group.import_joined h⟩

/-- C10 (witness): `sampleGroupFields` carries `("joined", true)`, yet
the decode from `Group.init` leaves `joined` at `false`, and a decode
from a group whose `joined` is already `true` keeps it `true`. -/
theorem joined_frame_condition_witness :
    sampleGroup.joined = false ∧ sampleGroupJoined.joined = true := by
  constructor
  · exact joined_frame_condition.2 Group.init (Json.obj sampleGroupFields)
      sampleGroup (by rfl)
  · exact joined_frame_condition.2 sampleGroupJoined
      (Json.obj sampleGroupFields) { sampleGroup with joined := true }
      (by rfl)

end Convore
